import Mathlib

/-!
Shallow embedding of the `telegrip` teleoperator adapter
(`src/lerobot/teleoperators/telegrip/telegrip_teleop.py` and
`config_telegrip.py`), together with theorems settling the behavioural
claims about it.

Modelling conventions:
* Python machine floats are never computed with here (angles are passed
  through unchanged, `float(angle)` on a number is the identity), so
  angles are modelled as rationals.
* Calls into the external `telegrip` subsystem (constructing the system,
  engaging motors, querying arm angles, pulling VR events, stopping) are
  modelled by oracle data: either fields of the modelled subsystem object
  or explicit parameters of the adapter operations.  A call that may
  raise is an `Except PyError` value.
* Each fallible adapter method returns the raised-or-returned outcome
  together with the post-state (Python mutates `self` before raising).
* The background thread and event loop carry no data the adapter reads,
  so the retained handles `_telegrip_thread` / `_loop` are modelled as
  `Option Unit`: `some ()` when the adapter holds the reference.
* `__init__` also writes `_left_arm_angles` / `_right_arm_angles`; these
  caches are never read anywhere in the file, so they are omitted.
-/

/-- Python exception values crossing the adapter boundary.
`external n` stands for an arbitrary exception raised by the downstream
subsystem; the tag `n` distinguishes exception objects so that
"re-raised unchanged" is expressible. -/
inductive PyError where
  | deviceAlreadyConnectedError
  | deviceNotConnectedError
  | external (code : Nat)
deriving DecidableEq

/-- `config_telegrip.py`: the `TelegripConfig` dataclass with its
declared defaults. -/
structure TelegripConfig where
  bimanual : Bool := false
  left_arm_port : Option String := none
  right_arm_port : String := "/dev/ttyACM0"
  https_port : Nat := 8443
  websocket_port : Nat := 8442
  host_ip : String := "0.0.0.0"
  log_level : String := "warning"
  autoconnect : Bool := false
  enable_robot : Bool := true
  enable_pybullet : Bool := true
  enable_pybullet_gui : Bool := true
  enable_vr : Bool := true
  enable_keyboard : Bool := true
deriving DecidableEq

/-- A raw VR event record: the adapter only ever reads
`event.get("type")`, which is `none` when the key is absent. -/
structure RawEvent where
  type : Option String
deriving DecidableEq

/-- The downstream robot interface: `get_arm_angles(side)` may raise or
return a sequence of angles. -/
structure RobotInterface where
  get_arm_angles : String → Except PyError (List ℚ)

/-- The subsystem's nested control-loop object; per the downstream
contract it exposes an optional robot interface. -/
structure ControlLoop where
  robot_interface : Option RobotInterface

/-- The external `TelegripSystem` object as seen by the adapter.
`get_vr_events = none` models the attribute being absent
(`hasattr` false); `some (.error e)` models the pull raising. -/
structure TelegripSystem where
  is_running : Bool
  control_loop : ControlLoop
  get_vr_events : Option (Except PyError (List RawEvent))

/-- The adapter's mutable attributes (`TelegripTeleoperator.__init__`). -/
structure TelegripTeleoperator where
  config : TelegripConfig
  telegrip_system : Option TelegripSystem
  connected_flag : Bool
  telegrip_thread : Option Unit
  last_action : Option (List (String × ℚ))
  loop : Option Unit

/-- `__init__`: all handles absent, flag down. -/
def init_teleop (config : TelegripConfig) : TelegripTeleoperator :=
  { config := config
    telegrip_system := none
    connected_flag := false
    telegrip_thread := none
    last_action := none
    loop := none }

/-- `self._motor_names`: the fixed SO100 joint list. -/
def motor_names : List String :=
  ["shoulder_pan", "shoulder_lift", "elbow_flex", "wrist_flex", "wrist_roll", "gripper"]

/-- `action_features` property: the action keys, in insertion order
(left block before right block when bimanual). -/
def action_features (config : TelegripConfig) : List String :=
  if config.bimanual then
    motor_names.map (fun motor => "left_" ++ motor ++ ".pos") ++
      motor_names.map (fun motor => "right_" ++ motor ++ ".pos")
  else
    motor_names.map (fun motor => motor ++ ".pos")

/-- `feedback_features` property: always the empty mapping. -/
def feedback_features (_config : TelegripConfig) : List String := []

/-- `is_connected` property: system present, reporting itself running,
and the adapter's own handshake flag up. -/
def is_connected (t : TelegripTeleoperator) : Bool :=
  match t.telegrip_system with
  | none => false
  | some sys => sys.is_running && t.connected_flag

/-- `connect(calibrate)`.  Oracles: `sysRes` is the outcome of importing,
building the downstream config and constructing `TelegripSystem`
(anything raising before `self._telegrip_system` is assigned);
`engageExc` is the exception raised by `robot_interface.engage()`, if
any.  Spawning the thread (which creates the loop) is modelled as
succeeding. -/
def connect (t : TelegripTeleoperator) (sysRes : Except PyError TelegripSystem)
    (engageExc : Option PyError) : Except PyError Unit × TelegripTeleoperator :=
  if is_connected t then
    (.error .deviceAlreadyConnectedError, t)
  else
    match sysRes with
    | .error e => (.error e, { t with connected_flag := false })
    | .ok sys =>
      let t1 := { t with
        telegrip_system := some sys
        telegrip_thread := some ()
        loop := some () }
      if t.config.autoconnect && t.config.enable_robot
          && sys.control_loop.robot_interface.isSome then
        match engageExc with
        | some e => (.error e, { t1 with connected_flag := false })
        | none => (.ok (), { t1 with connected_flag := true })
      else
        (.ok (), { t1 with connected_flag := true })

/-- One arm's worth of action entries: zip the fixed joint names with
the returned angles (Python `zip` truncates at the shorter list) and
build `"<prefix><motor>.pos"` keys. -/
def arm_action (pre : String) (angles : List ℚ) : List (String × ℚ) :=
  (motor_names.zip angles).map (fun p => (pre ++ p.1 ++ ".pos", p.2))

/-- `get_action()`.  Returns the raised-or-returned outcome and the
post-state (`_last_action` is only written when the record was built). -/
def get_action (t : TelegripTeleoperator) :
    Except PyError (List (String × ℚ)) × TelegripTeleoperator :=
  if is_connected t = false then
    (.error .deviceNotConnectedError, t)
  else
    match t.telegrip_system with
    | none => (.error .deviceNotConnectedError, t)
    | some sys =>
      match sys.control_loop.robot_interface with
      | none => (.ok [], { t with last_action := some [] })
      | some ri =>
        if t.config.bimanual then
          match ri.get_arm_angles "left" with
          | .error e => (.error e, t)
          | .ok left_angles =>
            match ri.get_arm_angles "right" with
            | .error e => (.error e, t)
            | .ok right_angles =>
              let action := arm_action "left_" left_angles ++ arm_action "right_" right_angles
              (.ok action, { t with last_action := some action })
        else
          match ri.get_arm_angles "right" with
          | .error e => (.error e, t)
          | .ok right_angles =>
            let action := arm_action "" right_angles
            (.ok action, { t with last_action := some action })

/-- `_drain_vr_events()`: empty when the system is absent, the attribute
is missing, or the pull raises. -/
def drain_vr_events (t : TelegripTeleoperator) : List RawEvent :=
  match t.telegrip_system with
  | none => []
  | some sys =>
    match sys.get_vr_events with
    | none => []
    | some (.error _) => []
    | some (.ok evs) => evs

/-- The five-signal event mapping keyed by the fixed `TeleopEvents`
names. -/
structure TeleopEventFlags where
  success : Bool
  failure : Bool
  rerecord_episode : Bool
  is_intervention : Bool
  terminate_episode : Bool
deriving DecidableEq

/-- The all-false initial mapping built at the top of
`get_teleop_events`. -/
def initTeleopEvents : TeleopEventFlags :=
  { success := false, failure := false, rerecord_episode := false
    is_intervention := false, terminate_episode := false }

/-- The loop body of `get_teleop_events`: one raw event updates the
signal mapping. -/
def apply_vr_event (events : TeleopEventFlags) (event : RawEvent) : TeleopEventFlags :=
  match event.type with
  | some "button_a" => { events with success := true, terminate_episode := true }
  | some "button_b" => { events with rerecord_episode := true, terminate_episode := true }
  | _ => events

/-- The fold performed by `get_teleop_events` over one poll's raw
events. -/
def fold_vr_events (evs : List RawEvent) : TeleopEventFlags :=
  evs.foldl apply_vr_event initTeleopEvents

/-- `get_teleop_events()`: drain then fold; no connectivity check. -/
def get_teleop_events (t : TelegripTeleoperator) : TeleopEventFlags :=
  fold_vr_events (drain_vr_events t)

/-- `disconnect()`.  `stopFails` records whether
`fut.result(timeout=5)` raised (timeout or downstream failure); that
exception is caught and only logged.  Stopping the loop and joining the
thread are modelled as non-raising. -/
def disconnect (t : TelegripTeleoperator) (_stopFails : Bool) :
    Except PyError Unit × TelegripTeleoperator :=
  if is_connected t = false then
    (.error .deviceNotConnectedError, t)
  else if t.telegrip_system.isSome && t.loop.isSome then
    (.ok (), { t with
      telegrip_system := none, loop := none, telegrip_thread := none
      connected_flag := false })
  else
    (.ok (), { t with connected_flag := false })

/-- States the adapter can actually be in: the initial state and
anything produced by the mutating operations, under any oracle
outcomes. -/
inductive Reachable : TelegripTeleoperator → Prop where
  | init (config : TelegripConfig) : Reachable (init_teleop config)
  | connect_step (t : TelegripTeleoperator) (sysRes : Except PyError TelegripSystem)
      (engageExc : Option PyError) : Reachable t → Reachable (connect t sysRes engageExc).2
  | disconnect_step (t : TelegripTeleoperator) (stopFails : Bool) :
      Reachable t → Reachable (disconnect t stopFails).2
  | action_step (t : TelegripTeleoperator) : Reachable t → Reachable (get_action t).2

/-! ### Characterisation of the VR-event fold -/

/-- Does a raw event carry type `"button_a"`? -/
def is_button_a (e : RawEvent) : Bool := decide (e.type = some "button_a")

/-- Does a raw event carry type `"button_b"`? -/
def is_button_b (e : RawEvent) : Bool := decide (e.type = some "button_b")

lemma apply_vr_event_eq (acc : TeleopEventFlags) (e : RawEvent) :
    apply_vr_event acc e =
      { acc with
        success := acc.success || is_button_a e
        rerecord_episode := acc.rerecord_episode || is_button_b e
        terminate_episode := acc.terminate_episode || (is_button_a e || is_button_b e) } := by
  unfold apply_vr_event
  split
  · rename_i h
    simp [is_button_a, is_button_b, h]
  · rename_i h
    simp [is_button_a, is_button_b, h]
  · rename_i h1 h2
    rcases e with ⟨ty⟩
    rcases ty with _ | s
    · simp [is_button_a, is_button_b]
    · have ha : s ≠ "button_a" := by
        intro hs; exact h1 (by simp [hs])
      have hb : s ≠ "button_b" := by
        intro hs; exact h2 (by simp [hs])
      simp [is_button_a, is_button_b, ha, hb]

lemma foldl_vr_events_eq (l : List RawEvent) (acc : TeleopEventFlags) :
    l.foldl apply_vr_event acc =
      { acc with
        success := acc.success || l.any is_button_a
        rerecord_episode := acc.rerecord_episode || l.any is_button_b
        terminate_episode :=
          acc.terminate_episode || l.any (fun e => is_button_a e || is_button_b e) } := by
  induction l generalizing acc with
  | nil => simp
  | cons e rest ih =>
    rw [List.foldl_cons, ih, apply_vr_event_eq]
    simp [Bool.or_assoc]

lemma fold_vr_events_eq (l : List RawEvent) :
    fold_vr_events l =
      { success := l.any is_button_a
        failure := false
        rerecord_episode := l.any is_button_b
        is_intervention := false
        terminate_episode := l.any (fun e => is_button_a e || is_button_b e) } := by
  rw [fold_vr_events, foldl_vr_events_eq]
  simp [initTeleopEvents]

lemma perm_any_eq {l1 l2 : List RawEvent} (h : l1.Perm l2) (p : RawEvent → Bool) :
    l1.any p = l2.any p := by
  rw [Bool.eq_iff_iff, List.any_eq_true, List.any_eq_true]
  constructor
  · rintro ⟨x, hx, hp⟩
    exact ⟨x, h.mem_iff.mp hx, hp⟩
  · rintro ⟨x, hx, hp⟩
    exact ⟨x, h.mem_iff.mpr hx, hp⟩

/-! ### Sample objects used by witnesses -/

/-- A running subsystem with no robot interface whose VR-event pull
returns the given events. -/
def vr_only_system (evs : List RawEvent) : TelegripSystem :=
  { is_running := true, control_loop := ⟨none⟩, get_vr_events := some (.ok evs) }

/-- An adapter holding `vr_only_system evs`. -/
def vr_only_state (evs : List RawEvent) : TelegripTeleoperator :=
  { init_teleop {} with telegrip_system := some (vr_only_system evs) }

/-! ### Claim theorems -/

/-- C1: `get_teleop_events` folds the raw events pulled in one poll as
follows: `[{"type":"button_a"}]` yields success and terminate true and
all else false; `[{"type":"button_b"}]` yields rerecord and terminate
true and all else false; a singleton with any unrecognised type (such
as `[{"type":"unknown"}]`, or a missing type key) yields the all-false
mapping; and any batch containing both a `"button_a"` and a
`"button_b"` event yields success, rerecord and terminate true with
failure and intervention false. -/
theorem C1_fold_events (t : TelegripTeleoperator) (evs : List RawEvent)
    (hdrain : drain_vr_events t = evs) :
    (evs = [⟨some "button_a"⟩] → get_teleop_events t =
      { success := true, failure := false, rerecord_episode := false
        is_intervention := false, terminate_episode := true })
    ∧ (evs = [⟨some "button_b"⟩] → get_teleop_events t =
      { success := false, failure := false, rerecord_episode := true
        is_intervention := false, terminate_episode := true })
    ∧ (∀ ty, ty ≠ some "button_a" → ty ≠ some "button_b" → evs = [⟨ty⟩] →
      get_teleop_events t =
      { success := false, failure := false, rerecord_episode := false
        is_intervention := false, terminate_episode := false })
    ∧ ((⟨some "button_a"⟩ : RawEvent) ∈ evs → (⟨some "button_b"⟩ : RawEvent) ∈ evs →
      get_teleop_events t =
      { success := true, failure := false, rerecord_episode := true
        is_intervention := false, terminate_episode := true }) := by
  have hg : get_teleop_events t = fold_vr_events evs := by
    rw [get_teleop_events, hdrain]
  refine ⟨?_, ?_, ?_, ?_⟩
  · intro h; rw [hg, h]; decide
  · intro h; rw [hg, h]; decide
  · intro ty hta htb h
    rw [hg, h, fold_vr_events_eq]
    simp [is_button_a, is_button_b, hta, htb]
  · intro ha hb
    rw [hg, fold_vr_events_eq]
    have h1 : evs.any is_button_a = true :=
      List.any_eq_true.mpr ⟨_, ha, by decide⟩
    have h2 : evs.any is_button_b = true :=
      List.any_eq_true.mpr ⟨_, hb, by decide⟩
    have h3 : evs.any (fun e => is_button_a e || is_button_b e) = true :=
      List.any_eq_true.mpr ⟨_, ha, by decide⟩
    rw [h1, h2, h3]

theorem C1_fold_events_witness :
    get_teleop_events (vr_only_state [⟨some "button_b"⟩, ⟨some "button_a"⟩]) =
      { success := true, failure := false, rerecord_episode := true
        is_intervention := false, terminate_episode := true } :=
  (C1_fold_events _ _ rfl).2.2.2 (by decide) (by decide)

/-- C2: `action_features` is a pure function of the configuration: with
`bimanual = false` it is exactly the six `"<motor>.pos"` keys for the
fixed motor list, with `bimanual = true` exactly the twelve
`left_`/`right_`-prefixed keys; `feedback_features` is always empty. -/
theorem C2_features (config : TelegripConfig) :
    (config.bimanual = false → action_features config =
      ["shoulder_pan.pos", "shoulder_lift.pos", "elbow_flex.pos",
       "wrist_flex.pos", "wrist_roll.pos", "gripper.pos"])
    ∧ (config.bimanual = true → action_features config =
      ["left_shoulder_pan.pos", "left_shoulder_lift.pos", "left_elbow_flex.pos",
       "left_wrist_flex.pos", "left_wrist_roll.pos", "left_gripper.pos",
       "right_shoulder_pan.pos", "right_shoulder_lift.pos", "right_elbow_flex.pos",
       "right_wrist_flex.pos", "right_wrist_roll.pos", "right_gripper.pos"])
    ∧ feedback_features config = [] := by
  refine ⟨?_, ?_, rfl⟩
  · intro h; unfold action_features; rw [h]; decide
  · intro h; unfold action_features; rw [h]; decide

theorem C2_features_witness :
    action_features {} =
      ["shoulder_pan.pos", "shoulder_lift.pos", "elbow_flex.pos",
       "wrist_flex.pos", "wrist_roll.pos", "gripper.pos"]
    ∧ feedback_features ({} : TelegripConfig) = [] :=
  ⟨(C2_features {}).1 rfl, (C2_features {}).2.2⟩

/-- C9: the VR-event fold is order-independent — any two raw event
sequences that are permutations of each other fold to the same
five-signal result. -/
theorem C9_fold_perm_invariant (l1 l2 : List RawEvent) (h : l1.Perm l2) :
    fold_vr_events l1 = fold_vr_events l2 := by
  rw [fold_vr_events_eq, fold_vr_events_eq,
    perm_any_eq h, perm_any_eq h, perm_any_eq h]

theorem C9_fold_perm_invariant_witness :
    fold_vr_events [⟨some "button_a"⟩, ⟨some "button_b"⟩] =
      fold_vr_events [⟨some "button_b"⟩, ⟨some "button_a"⟩] :=
  C9_fold_perm_invariant _ _ (List.Perm.swap _ _ _)

/-- A robot interface answering both sides with fixed angle lists. -/
def sample_interface : RobotInterface :=
  ⟨fun side => if side = "left" then .ok [1, 2, 3, 4, 5, 6] else .ok [7, 8, 9, 10, 11, 12]⟩

/-- A running subsystem exposing `sample_interface` and no VR events. -/
def full_system : TelegripSystem :=
  { is_running := true, control_loop := ⟨some sample_interface⟩, get_vr_events := none }

/-- A running subsystem with no robot interface. -/
def no_iface_system : TelegripSystem :=
  { is_running := true, control_loop := ⟨none⟩, get_vr_events := none }

/-- A connected single-arm adapter over `full_system`. -/
def single_state : TelegripTeleoperator :=
  { init_teleop {} with telegrip_system := some full_system, connected_flag := true }

/-- A connected bimanual adapter over `full_system`. -/
def bimanual_state : TelegripTeleoperator :=
  { init_teleop { bimanual := true } with
    telegrip_system := some full_system, connected_flag := true }

/-- A connected adapter whose subsystem has no robot interface. -/
def no_iface_state : TelegripTeleoperator :=
  { init_teleop {} with telegrip_system := some no_iface_system, connected_flag := true }

/-- C6: on a disconnected adapter `get_action` and `disconnect` raise
`DeviceNotConnectedError` (leaving the state untouched), while
`get_teleop_events` has no connectivity precondition and, when no
subsystem object exists, returns the mapping with all five signals
false. -/
theorem C6_disconnected_ops (t : TelegripTeleoperator) (stopFails : Bool)
    (h : is_connected t = false) :
    get_action t = (.error .deviceNotConnectedError, t)
    ∧ disconnect t stopFails = (.error .deviceNotConnectedError, t)
    ∧ (t.telegrip_system = none → get_teleop_events t =
      { success := false, failure := false, rerecord_episode := false
        is_intervention := false, terminate_episode := false }) := by
  refine ⟨?_, ?_, ?_⟩
  · rw [get_action]; simp [h]
  · rw [disconnect]; simp [h]
  · intro hs
    rw [get_teleop_events, drain_vr_events, hs]
    decide

theorem C6_disconnected_ops_witness :
    get_action (init_teleop {}) = (.error .deviceNotConnectedError, init_teleop {})
    ∧ disconnect (init_teleop {}) false = (.error .deviceNotConnectedError, init_teleop {})
    ∧ ((init_teleop {}).telegrip_system = none → get_teleop_events (init_teleop {}) =
      { success := false, failure := false, rerecord_episode := false
        is_intervention := false, terminate_episode := false }) :=
  C6_disconnected_ops (init_teleop {}) false rfl

/-- C8: `connect` on an already-connected adapter fails with
`DeviceAlreadyConnectedError` and returns the state entirely unchanged,
whatever the construction and engage oracles would have done. -/
theorem C8_connect_already_connected (t : TelegripTeleoperator)
    (sysRes : Except PyError TelegripSystem) (engageExc : Option PyError)
    (hc : is_connected t = true) :
    connect t sysRes engageExc = (.error .deviceAlreadyConnectedError, t) := by
  rw [connect.eq_def]; simp [hc]

theorem C8_connect_already_connected_witness :
    connect single_state (.ok full_system) none =
      (.error .deviceAlreadyConnectedError, single_state) :=
  C8_connect_already_connected single_state (.ok full_system) none rfl

/-- C5: on a connected adapter, when the subsystem exposes no robot
interface `get_action` returns the empty action record instead of
failing; and any exception raised by an angle query (left or right, in
either mode) is re-raised unchanged to the caller with no fallback
value substituted. -/
theorem C5_get_action_errors (t : TelegripTeleoperator) (sys : TelegripSystem)
    (ri : RobotInterface) (e : PyError)
    (hc : is_connected t = true) (hsys : t.telegrip_system = some sys) :
    (sys.control_loop.robot_interface = none →
      get_action t = (.ok [], { t with last_action := some [] }))
    ∧ (sys.control_loop.robot_interface = some ri →
        ((t.config.bimanual = true → ri.get_arm_angles "left" = .error e →
          get_action t = (.error e, t))
        ∧ (t.config.bimanual = true → ∀ ls, ri.get_arm_angles "left" = .ok ls →
          ri.get_arm_angles "right" = .error e → get_action t = (.error e, t))
        ∧ (t.config.bimanual = false → ri.get_arm_angles "right" = .error e →
          get_action t = (.error e, t)))) := by
  refine ⟨?_, ?_⟩
  · intro hri
    rw [get_action]
    simp [hc, hsys, hri]
  · intro hri
    refine ⟨?_, ?_, ?_⟩
    · intro hbi hleft
      rw [get_action]
      simp [hc, hsys, hri, hbi, hleft]
    · intro hbi ls hleft hright
      rw [get_action]
      simp [hc, hsys, hri, hbi, hleft, hright]
    · intro hbi hright
      rw [get_action]
      simp [hc, hsys, hri, hbi, hright]

theorem C5_get_action_errors_witness :
    get_action no_iface_state = (.ok [], { no_iface_state with last_action := some [] }) :=
  (C5_get_action_errors no_iface_state no_iface_system sample_interface
    (.external 0) rfl rfl).1 rfl

/-- C7: on a connected bimanual adapter whose interface reports left
angles `[1..6]` and right angles `[7..12]`, `get_action` returns exactly
the twelve prefixed `"<motor>.pos"` entries pairing the fixed joint
names with the angles in order, left block first. -/
theorem C7_bimanual_action (t : TelegripTeleoperator) (sys : TelegripSystem)
    (ri : RobotInterface)
    (hc : is_connected t = true) (hsys : t.telegrip_system = some sys)
    (hri : sys.control_loop.robot_interface = some ri)
    (hbi : t.config.bimanual = true)
    (hleft : ri.get_arm_angles "left" = .ok [1, 2, 3, 4, 5, 6])
    (hright : ri.get_arm_angles "right" = .ok [7, 8, 9, 10, 11, 12]) :
    (get_action t).1 = .ok
      [("left_shoulder_pan.pos", 1), ("left_shoulder_lift.pos", 2),
       ("left_elbow_flex.pos", 3), ("left_wrist_flex.pos", 4),
       ("left_wrist_roll.pos", 5), ("left_gripper.pos", 6),
       ("right_shoulder_pan.pos", 7), ("right_shoulder_lift.pos", 8),
       ("right_elbow_flex.pos", 9), ("right_wrist_flex.pos", 10),
       ("right_wrist_roll.pos", 11), ("right_gripper.pos", 12)] := by
  rw [get_action]
  simp [hc, hsys, hri, hbi, hleft, hright]
  decide

theorem C7_bimanual_action_witness :
    (get_action bimanual_state).1 = .ok
      [("left_shoulder_pan.pos", 1), ("left_shoulder_lift.pos", 2),
       ("left_elbow_flex.pos", 3), ("left_wrist_flex.pos", 4),
       ("left_wrist_roll.pos", 5), ("left_gripper.pos", 6),
       ("right_shoulder_pan.pos", 7), ("right_shoulder_lift.pos", 8),
       ("right_elbow_flex.pos", 9), ("right_wrist_flex.pos", 10),
       ("right_wrist_roll.pos", 11), ("right_gripper.pos", 12)] :=
  C7_bimanual_action bimanual_state full_system sample_interface
    rfl rfl rfl rfl rfl rfl

/-- C10: on a connected single-arm adapter with a robot interface, the
outcome of `get_action` is a function of the `"right"`-side query alone
— the left arm is never read — and the six unprefixed `"<motor>.pos"`
keys receive the right arm's angles in order. -/
theorem C10_single_arm_uses_right (t : TelegripTeleoperator) (sys : TelegripSystem)
    (ri : RobotInterface)
    (hc : is_connected t = true) (hsys : t.telegrip_system = some sys)
    (hri : sys.control_loop.robot_interface = some ri)
    (hbi : t.config.bimanual = false) :
    (get_action t).1 = (ri.get_arm_angles "right").map (fun angles => arm_action "" angles) := by
  rw [get_action]
  simp [hc, hsys, hri, hbi]
  cases hr : ri.get_arm_angles "right" with
  | error e => simp [hr, Except.map]
  | ok angles => simp [hr, Except.map]

theorem C10_single_arm_uses_right_witness :
    (get_action single_state).1 =
      (sample_interface.get_arm_angles "right").map (fun angles => arm_action "" angles) :=
  C10_single_arm_uses_right single_state full_system sample_interface rfl rfl rfl rfl

/-! ### Lifecycle invariant: a connected adapter holds its loop -/

lemma is_connected_eq_false_of_flag (t : TelegripTeleoperator)
    (h : t.connected_flag = false) : is_connected t = false := by
  rw [is_connected]
  cases t.telegrip_system <;> simp [h]

lemma connect_snd_cases (t : TelegripTeleoperator) (sysRes : Except PyError TelegripSystem)
    (engageExc : Option PyError) :
    (connect t sysRes engageExc).2 = t
    ∨ is_connected (connect t sysRes engageExc).2 = false
    ∨ (connect t sysRes engageExc).2.loop = some () := by
  rw [connect.eq_def]
  split
  · exact Or.inl rfl
  · cases sysRes with
    | error e => exact Or.inr (Or.inl (is_connected_eq_false_of_flag _ rfl))
    | ok sys =>
      dsimp only
      split
      · cases engageExc with
        | some e => exact Or.inr (Or.inl (is_connected_eq_false_of_flag _ rfl))
        | none => exact Or.inr (Or.inr rfl)
      · exact Or.inr (Or.inr rfl)

lemma disconnect_snd_cases (t : TelegripTeleoperator) (stopFails : Bool) :
    (disconnect t stopFails).2 = t
    ∨ is_connected (disconnect t stopFails).2 = false := by
  rw [disconnect]
  split
  · exact Or.inl rfl
  · split
    · exact Or.inr (is_connected_eq_false_of_flag _ rfl)
    · exact Or.inr (is_connected_eq_false_of_flag _ rfl)

lemma get_action_preserves (t : TelegripTeleoperator) :
    (get_action t).2.loop = t.loop
    ∧ (get_action t).2.telegrip_system = t.telegrip_system
    ∧ (get_action t).2.connected_flag = t.connected_flag := by
  rw [get_action]
  repeat' split
  all_goals exact ⟨rfl, rfl, rfl⟩

lemma is_connected_get_action (t : TelegripTeleoperator) :
    is_connected (get_action t).2 = is_connected t := by
  obtain ⟨hl, hs, hf⟩ := get_action_preserves t
  rw [is_connected, is_connected, hs, hf]

/-- Every reachable connected state still holds the loop handle created
by the background thread during `connect`. -/
lemma reachable_connected_loop (t : TelegripTeleoperator) (h : Reachable t) :
    is_connected t = true → t.loop = some () := by
  induction h with
  | init config =>
    intro hconn
    simp [is_connected, init_teleop] at hconn
  | connect_step t sysRes engageExc ht ih =>
    intro hconn
    rcases connect_snd_cases t sysRes engageExc with heq | hfalse | hloop
    · rw [heq] at hconn ⊢
      exact ih hconn
    · rw [hfalse] at hconn
      cases hconn
    · exact hloop
  | disconnect_step t stopFails ht ih =>
    intro hconn
    rcases disconnect_snd_cases t stopFails with heq | hfalse
    · rw [heq] at hconn ⊢
      exact ih hconn
    · rw [hfalse] at hconn
      cases hconn
  | action_step t ht ih =>
    intro hconn
    rw [is_connected_get_action] at hconn
    rw [(get_action_preserves t).1]
    exact ih hconn

lemma connected_system_isSome (t : TelegripTeleoperator) (hconn : is_connected t = true) :
    t.telegrip_system.isSome = true := by
  rw [is_connected] at hconn
  cases h : t.telegrip_system with
  | none => rw [h] at hconn; cases hconn
  | some sys => rfl

/-- C3: from any reachable connected state, `disconnect` returns
normally whether or not the downstream stop call raised or timed out,
and afterwards the adapter reports not connected with the subsystem,
loop and thread references all cleared. -/
theorem C3_disconnect_clears (t : TelegripTeleoperator) (stopFails : Bool)
    (hr : Reachable t) (hconn : is_connected t = true) :
    (disconnect t stopFails).1 = .ok ()
    ∧ is_connected (disconnect t stopFails).2 = false
    ∧ (disconnect t stopFails).2.telegrip_system = none
    ∧ (disconnect t stopFails).2.loop = none
    ∧ (disconnect t stopFails).2.telegrip_thread = none := by
  have hloop : t.loop = some () := reachable_connected_loop t hr hconn
  have hsys : t.telegrip_system.isSome = true := connected_system_isSome t hconn
  rw [disconnect]
  rw [if_neg (by simp [hconn]), if_pos (by simp [hsys, hloop])]
  exact ⟨rfl, rfl, rfl, rfl, rfl⟩

/-- A concrete connected state produced by a successful `connect` from
the initial state. -/
def connected_state : TelegripTeleoperator :=
  (connect (init_teleop {}) (.ok full_system) none).2

theorem C3_disconnect_clears_witness :
    (disconnect connected_state true).1 = .ok ()
    ∧ is_connected (disconnect connected_state true).2 = false
    ∧ (disconnect connected_state true).2.telegrip_system = none
    ∧ (disconnect connected_state true).2.loop = none
    ∧ (disconnect connected_state true).2.telegrip_thread = none :=
  C3_disconnect_clears connected_state true
    (Reachable.connect_step (init_teleop {}) (.ok full_system) none (Reachable.init {})) rfl

/-- A configuration that auto-engages the robot on connect. -/
def auto_config : TelegripConfig := { autoconnect := true }

/-- C4 counterexample: a setup failure raised by `engage()` after the
background thread was spawned.  `connect` does propagate the failure,
but the adapter keeps its handle to the spawned thread — the `except`
clause only lowers the connected flag. -/
theorem C4_counterexample_thread_retained :
    (connect (init_teleop auto_config) (.ok full_system) (some (.external 7))).1
      = .error (.external 7)
    ∧ (connect (init_teleop auto_config) (.ok full_system) (some (.external 7))).2.telegrip_thread
      = some () :=
  ⟨rfl, rfl⟩

/-- C4 (amended): any failure during `connect`'s setup leaves the
adapter disconnected and is propagated unchanged to the caller; the
adapter retains no handle when the failure occurs during subsystem
construction, but a failure raised after the background thread is
spawned (by `engage()`) leaves the thread handle set. -/
theorem C4_connect_failure_amended (t : TelegripTeleoperator)
    (sysRes : Except PyError TelegripSystem) (engageExc : Option PyError) (e : PyError)
    (hfail : (connect t sysRes engageExc).1 = .error e)
    (hnc : is_connected t = false) :
    is_connected (connect t sysRes engageExc).2 = false
    ∧ (sysRes = .error e ∨ engageExc = some e)
    ∧ (∀ e2, sysRes = .error e2 →
        (connect t sysRes engageExc).2.telegrip_thread = t.telegrip_thread) := by
  rw [connect.eq_def] at hfail ⊢
  rw [if_neg (by simp [hnc])] at hfail ⊢
  cases sysRes with
  | error e2 =>
    dsimp only at hfail ⊢
    have he : e2 = e := by simpa using hfail
    exact ⟨is_connected_eq_false_of_flag _ rfl, Or.inl (by rw [he]), fun e3 h3 => rfl⟩
  | ok sys =>
    dsimp only at hfail ⊢
    by_cases hcond : (t.config.autoconnect && t.config.enable_robot
        && sys.control_loop.robot_interface.isSome) = true
    · rw [if_pos hcond] at hfail ⊢
      cases engageExc with
      | some e2 =>
        have he : e2 = e := by simpa using hfail
        refine ⟨is_connected_eq_false_of_flag _ rfl, Or.inr (by rw [he]), ?_⟩
        intro e3 h3
        simp at h3
      | none =>
        simp at hfail
    · rw [if_neg hcond] at hfail ⊢
      simp at hfail

theorem C4_connect_failure_amended_witness :
    is_connected (connect (init_teleop auto_config) (.ok full_system)
      (some (.external 7))).2 = false
    ∧ ((.ok full_system : Except PyError TelegripSystem) = .error (.external 7)
        ∨ (some (.external 7) : Option PyError) = some (.external 7))
    ∧ (∀ e2, (.ok full_system : Except PyError TelegripSystem) = .error e2 →
        (connect (init_teleop auto_config) (.ok full_system)
          (some (.external 7))).2.telegrip_thread = (init_teleop auto_config).telegrip_thread) :=
  C4_connect_failure_amended (init_teleop auto_config) (.ok full_system)
    (some (.external 7)) (.external 7) rfl rfl
